import Mathlib

/-!
Verification of the slo2bq sync engine (Stackdriver SLO → BigQuery export).

The Go sources are shallowly embedded: absolute instants and wall-clock
seconds are `Int` Unix seconds, `time.Location` is a list of UTC-offset
transitions (as read from the IANA zoneinfo database), `float64` values that
only ever hold exactly-representable counter values are modelled as `ℚ`,
`int64` results as `Int`, and fallible Go functions return `Except String`.
Functions that call the metrics or warehouse clients additionally return a
log of the requests they issued, so that properties about which queries /
writes happen can be stated.
-/

set_option allowUnsafeReducibility true
attribute [semireducible] Rat.add Rat.mul Rat.sub Rat.inv

deriving instance DecidableEq for Except

namespace Slo2bq

/-- Model of Go `*time.Location`: a base UTC offset (seconds) in force before
the first transition, plus an ascending list of `(instant, offsetAfter)`
transitions, exactly the data a zoneinfo file provides. -/
structure Location where
  baseOffset : Int
  transitions : List (Int × Int)
deriving Repr, DecidableEq

/-- Zone lookup, mirroring Go `Location.lookup`: returns the UTC offset in
force at instant `t` together with the start (inclusive) and end (exclusive)
of the validity interval of that zone; `none` stands for −∞ / +∞. -/
def lookupZone (loc : Location) (t : Int) : Int × Option Int × Option Int :=
  go loc.baseOffset none loc.transitions
where
  go (off : Int) (start : Option Int) : List (Int × Int) → Int × Option Int × Option Int
    | [] => (off, start, none)
    | (tr, o) :: rest =>
      if t < tr then (off, start, some tr) else go o (some tr) rest

/-- UTC offset of `loc` at instant `t`. -/
def utcOffset (loc : Location) (t : Int) : Int :=
  (lookupZone loc t).1

/-- The set (as a list) of all UTC offsets `loc` can ever produce. -/
def offsetsOf (loc : Location) : List Int :=
  loc.baseOffset :: loc.transitions.map Prod.snd

/-- Model of Go `time.Date(y, m, d, 0, 0, 0, 0, loc)` given the desired local
wall-clock time `wall` in seconds: Go looks up the zone for the wall reading
pretended to be UTC, subtracts that offset, and re-looks-up once if the
result falls outside the found zone's validity window. -/
def goDate (loc : Location) (wall : Int) : Int :=
  let z := lookupZone loc wall
  let off := z.1
  if off = 0 then wall
  else
    let utc := wall - off
    let ok : Bool := match z.2.1, z.2.2 with
      | some s, some e => s ≤ utc ∧ utc < e
      | some s, none => s ≤ utc
      | none, some e => utc < e
      | none, none => true
    if ok then wall - off else wall - utcOffset loc utc

/-- `daysAgoMidnightTimestamp` from sd.go: converts `now` into `loc`,
subtracts `daysAgo` calendar days (equivalently, subtracts `daysAgo` from the
local day number) and resolves local midnight of that date back to an
absolute instant via Go's `time.Date`. -/
def daysAgoMidnightTimestamp (now : Int) (loc : Location) (daysAgo : Int) : Int :=
  let localSec := now + utcOffset loc now
  let day := Int.fdiv localSec 86400 - daysAgo
  goDate loc (day * 86400)

/-- Local day number (days since the Unix epoch, in `loc`) of instant `t`. -/
def localDay (loc : Location) (t : Int) : Int :=
  Int.fdiv (t + utcOffset loc t) 86400

/-- Civil-from-days: convert a day number (days since 1970-01-01) to a
proleptic-Gregorian (year, month, day) triple. -/
def civilFromDays (z : Int) : Int × Nat × Nat :=
  let zz := z + 719468
  let era := Int.fdiv zz 146097
  let doe := (zz - era * 146097).toNat
  let yoe := (doe - doe / 1460 + doe / 36524 - doe / 146096) / 365
  let doy := doe - (365 * yoe + yoe / 4 - yoe / 100)
  let mp := (5 * doy + 2) / 153
  let d := doy - (153 * mp + 2) / 5 + 1
  let m := if mp < 10 then mp + 3 else mp - 9
  (era * 400 + yoe + (if m ≤ 2 then 1 else 0), m, d)

/-- Zero-pad the decimal rendering of `n` to width `w`. -/
def padNum (w : Nat) (n : Nat) : String :=
  let s := toString n
  (String.mk (List.replicate (w - s.length) '0')) ++ s

/-- Go `Format("2006-01-02")` applied to local midnight of day number `day`:
a `YYYY-MM-DD` date string. -/
def dayToDateString (day : Int) : String :=
  let c := civilFromDays day
  padNum 4 c.1.toNat ++ "-" ++ padNum 2 c.2.1 ++ "-" ++ padNum 2 c.2.2

/-- Go `t.Format("2006-01-02")` for an instant carrying location `loc`. -/
def formatDate (loc : Location) (t : Int) : String :=
  dayToDateString (localDay loc t)

/-- Europe/London around 2015, from the IANA database: GMT (UTC+0) base,
to BST (UTC+1) at 2015-03-29 01:00 UTC, back to GMT at 2015-10-25 01:00 UTC. -/
def london2015 : Location :=
  ⟨0, [(1427590800, 3600), (1445734800, 0)]⟩

/-- Australia/Lord_Howe around 2015: in LHDT (UTC+11) at the start of 2015,
to LHST (UTC+10:30) at 2015-04-04 15:00 UTC, back to LHDT (UTC+11) at
2015-10-03 15:30 UTC. -/
def lordHowe2015 : Location :=
  ⟨39600, [(1428159600, 37800), (1443886200, 39600)]⟩

/-- Configuration expected by the function (function.go). -/
structure Config where
  Project : String
  Dataset : String
  TimeZone : String
deriving Repr, DecidableEq

/-- BigQuery table name for the raw data (function.go). -/
def tableName : String := "data"

/-- Package-level default backfill length (sd.go): Stackdriver retention is
42 days, so up to 40 days in the past are backfilled. -/
def backfillDays : Nat := 40

/-- Package-level default number of BigQuery rows written at a time (sd.go). -/
def bqBatchSize : Nat := 100

/-- A service defined in Stackdriver (sd_slo_client.go). The `Type` and
`ResourceName` fields are never read by the code under verification and are
omitted. -/
structure Service where
  Name : String
  DisplayName : String
deriving Repr, DecidableEq

/-- Go `strings.Split(s, sep)` for a one-character separator, on the
character list: fields between separators, `[""]` for the empty string. -/
def goSplitList (sep : Char) : List Char → List (List Char)
  | [] => [[]]
  | x :: rest =>
    match goSplitList sep rest with
    | [] => [[]]
    | h :: t => if x = sep then [] :: h :: t else (x :: h) :: t

/-- Go `strings.Split(s, sep)` for a one-character separator. -/
def goSplit (sep : Char) (s : String) : List String :=
  (goSplitList sep s.data).map String.mk

/-- `Service.HumanName` (sd_slo_client.go): the display name when set,
otherwise the 4th `/`-separated component of the resource name
`projects/$project/services/$service`; indexing out of range is a Go panic,
modelled as `none`. -/
def Service.HumanName (s : Service) : Option String :=
  if s.DisplayName ≠ "" then some s.DisplayName
  else (goSplit '/' s.Name).get? 3

/-- The three-way good/bad/total ratio SLI: up to three filter expressions,
empty string meaning "not configured". -/
structure GoodTotalRatioSLI where
  Good : String
  Bad : String
  Total : String
deriving Repr, DecidableEq

/-- An SLO (sd_slo_client.go); `Goal` is a float64 carried verbatim into
output rows, modelled as `ℚ`. -/
structure SLO where
  Name : String
  DisplayName : String
  Goal : ℚ
deriving Repr, DecidableEq

/-- `SLO.HumanName` (sd_slo_client.go): the display name when set, otherwise
the 6th `/`-separated component of
`projects/$project/services/$service/serviceLevelObjectives/$slo`; indexing
out of range is a Go panic, modelled as `none`. -/
def SLO.HumanName (s : SLO) : Option String :=
  if s.DisplayName ≠ "" then some s.DisplayName
  else (goSplit '/' s.Name).get? 5

/-- Data in a single BigQuery row (bq_client.go). -/
structure BQRow where
  Service : String
  SLO : String
  Date : String
  Total : Int
  Good : Int
  Target : ℚ
deriving Repr, DecidableEq

/-- Key of the existing-data index (bqmap.go). -/
structure bqMapKey where
  Service : String
  SLO : String
  Date : String
deriving Repr, DecidableEq

/-- `bqMap` (bqmap.go): a set of (Service, SLO, Date) keys; the Go
`map[bqMapKey]bool` is modelled as the list of keys that map to `true`. -/
def bqMap : Type := List bqMapKey

instance : Repr bqMap := inferInstanceAs (Repr (List bqMapKey))
instance : DecidableEq bqMap := inferInstanceAs (DecidableEq (List bqMapKey))
instance : Membership bqMapKey bqMap := inferInstanceAs (Membership bqMapKey (List bqMapKey))
instance : EmptyCollection bqMap := ⟨([] : List bqMapKey)⟩

/-- `bqMap.Add` (bqmap.go): record a service+slo+date key. -/
def bqMap.Add (b : bqMap) (service slo date : String) : bqMap :=
  bqMapKey.mk service slo date :: (b : List bqMapKey)

/-- `bqMap.Check` (bqmap.go): whether a given service+slo+date key exists. -/
def bqMap.Check (b : bqMap) (service slo date : String) : Bool :=
  (b : List bqMapKey).contains (bqMapKey.mk service slo date)

/-- Value type tag of a time series (google.api.MetricDescriptor). -/
inductive MetricValueType where
  | DOUBLE
  | INT64
  | OTHER
deriving Repr, DecidableEq

/-- A `oneof` typed value carried by a point (monitoringpb.TypedValue). -/
inductive TypedValue where
  | double (q : ℚ)
  | int64 (i : Int)
deriving Repr, DecidableEq

/-- `GetDoubleValue`: the double payload, or 0 when the oneof holds another
kind (Go proto getter semantics). -/
def TypedValue.getDouble : TypedValue → ℚ
  | .double q => q
  | _ => 0

/-- `GetInt64Value`: the int64 payload, or 0 when the oneof holds another
kind. -/
def TypedValue.getInt64 : TypedValue → Int
  | .int64 i => i
  | _ => 0

/-- A point of a time series. -/
structure Point where
  value : TypedValue
deriving Repr, DecidableEq

/-- A time series returned by `ListTimeSeries`: metric labels, value type
tag, points. -/
structure TimeSeries where
  labels : List (String × String)
  valueType : MetricValueType
  points : List Point
deriving Repr, DecidableEq

/-- Go map lookup with string zero value: first matching label or "". -/
def getLabel (labels : List (String × String)) (key : String) : String :=
  match labels.find? (fun p => p.1 = key) with
  | some p => p.2
  | none => ""

/-- The parts of a `ListTimeSeriesRequest` the code fills in: resource name,
filter, interval, alignment period, and whether a cross-series SUM reducer is
set (the per-series aligner is ALIGN_DELTA in every request the code
builds). -/
structure MetricReq where
  name : String
  filter : String
  startSec : Int
  endSec : Int
  alignSec : Int
  reducerSum : Bool
deriving Repr, DecidableEq

/-- The metrics backend as seen by one run: a response (or error) for each
request. -/
def MetricOracle : Type := MetricReq → Except String (List TimeSeries)

/-- Go `int64(f)` conversion of a float64: truncation toward zero. -/
def ratTrunc (q : ℚ) : Int :=
  Int.tdiv q.num (q.den : Int)

/-- `getCounter` (sd.go, current revision): one query for a cumulative
metric: alignment period = whole interval, DELTA aligner, SUM cross-series
reducer. Zero series is a counter value of 0; exactly one series with exactly
one DOUBLE (truncated) or INT64 point yields that value; anything else is an
error. Returns the issued requests alongside the result. -/
def getCounter (cfg : Config) (startT endT : Int) (filter : String)
    (sd : MetricOracle) : List MetricReq × Except String Int :=
  let req : MetricReq :=
    ⟨"projects/" ++ cfg.Project, filter, startT, endT, endT - startT, true⟩
  ([req],
    match sd req with
    | .error e => .error e
    | .ok series =>
      match series with
      | [] => .ok 0
      | [s] =>
        match s.points with
        | [p] =>
          match s.valueType with
          | .DOUBLE => .ok (ratTrunc p.value.getDouble)
          | .INT64 => .ok p.value.getInt64
          | .OTHER => .error ("unexpected value type while querying " ++ filter)
        | _ => .error ("expected to get 1 point while querying " ++ filter)
      | _ => .error ("expected to get 1 time series while querying " ++ filter))

/-- `getGoodTotal` (sd.go, current revision): dispatch over which two of the
three filters {good, bad, total} are configured, deriving the third
algebraically; fewer than two configured filters is an error. -/
def getGoodTotal (cfg : Config) (sli : GoodTotalRatioSLI) (startT endT : Int)
    (sd : MetricOracle) : List MetricReq × Except String (Int × Int) :=
  if sli.Good ≠ "" ∧ sli.Total ≠ "" then
    let r1 := getCounter cfg startT endT sli.Good sd
    match r1.2 with
    | .error e => (r1.1, .error e)
    | .ok good =>
      let r2 := getCounter cfg startT endT sli.Total sd
      (r1.1 ++ r2.1, r2.2.map (fun total => (good, total)))
  else if sli.Good ≠ "" ∧ sli.Bad ≠ "" then
    let r1 := getCounter cfg startT endT sli.Good sd
    match r1.2 with
    | .error e => (r1.1, .error e)
    | .ok good =>
      let r2 := getCounter cfg startT endT sli.Bad sd
      (r1.1 ++ r2.1, r2.2.map (fun bad => (good, good + bad)))
  else if sli.Bad ≠ "" ∧ sli.Total ≠ "" then
    let r1 := getCounter cfg startT endT sli.Bad sd
    match r1.2 with
    | .error e => (r1.1, .error e)
    | .ok bad =>
      let r2 := getCounter cfg startT endT sli.Total sd
      (r1.1 ++ r2.1, r2.2.map (fun total => (total - bad, total)))
  else
    ([], .error "expected 2 out of 3 filter expressions (good, bad, total) to be defined")

/-- Series loop of the legacy `getGoodTotal` (sd.go, first revision, lines
151–169): accumulate good/total as float64 sums, erroring on a series with a
point count other than 1, a non-DOUBLE value type, or an `event_type` label
other than good/bad; truncate to int64 only at the end. -/
def legacySum : List TimeSeries → ℚ → ℚ → Except String (Int × Int)
  | [], good, total => .ok (ratTrunc good, ratTrunc total)
  | s :: rest, good, total =>
    match s.points with
    | [p] =>
      if s.valueType ≠ .DOUBLE then .error "unexpected value type"
      else
        let value := p.value.getDouble
        if getLabel s.labels "event_type" = "bad" then
          legacySum rest good (total + value)
        else if getLabel s.labels "event_type" = "good" then
          legacySum rest (good + value) (total + value)
        else .error "unexpected value of event_type label"
    | _ => .error "expected to get 1 point"

/-- `getGoodTotal` (sd.go, first revision, lines 119–171): one
`select_slo_counts` query for the whole interval; an empty response yields
(0, 0) with no error, any series count other than 0 or 2 is an error, and
two series are summed into good/total by their `event_type` label. -/
def getGoodTotalLegacy (cfg : Config) (sloName : String) (startT endT : Int)
    (sd : MetricOracle) : List MetricReq × Except String (Int × Int) :=
  let req : MetricReq :=
    ⟨"projects/" ++ cfg.Project, "select_slo_counts(\"" ++ sloName ++ "\")",
      startT, endT, endT - startT, false⟩
  ([req],
    match sd req with
    | .error e => .error e
    | .ok series =>
      if series.length = 0 then .ok (0, 0)
      else if series.length ≠ 2 then .error "expected to get 2 time series"
      else legacySum series 0 0)

/-- Row-validation fold of `readBQMap` (bqmap.go): error on the first row
with an empty Service, SLO or Date, otherwise add every key. -/
def buildBqMapRows : List BQRow → bqMap → Except String bqMap
  | [], acc => .ok acc
  | r :: rest, acc =>
    if r.Service = "" ∨ r.SLO = "" ∨ r.Date = "" then
      .error "Expected Service, SLO and Date to be set in BQ row"
    else buildBqMapRows rest (acc.Add r.Service r.SLO r.Date)

/-- `readBQMap` (bqmap.go): query all (service, slo, date) rows newer than
the backfill window start and index them; the warehouse is modelled as a
response per SQL string. `tz` is the result of `time.LoadLocation`. -/
def readBQMap (bqQuery : String → Except String (List BQRow)) (cfg : Config)
    (tz : Option Location) (now : Int) (backfill : Nat) : Except String bqMap :=
  match tz with
  | none => .error ("unknown time zone " ++ cfg.TimeZone)
  | some loc =>
    let startDate := formatDate loc (daysAgoMidnightTimestamp now loc backfill)
    let q := "SELECT service, slo, FORMAT_DATE('%F', `date`) as date FROM `"
      ++ cfg.Dataset ++ "." ++ tableName ++ "` WHERE date >= '" ++ startDate ++ "';"
    match bqQuery q with
    | .error e => .error e
    | .ok rows => buildBqMapRows rows {}

/-- Day loop of `newRecords` (sd.go, lines 91–113), over the remaining
`daysAgo` offsets: build the row key for the day, skip it if the
existing-data index already has it, otherwise query good/total and emit a
row. A Go panic from `HumanName` on a malformed resource name is modelled as
an error. -/
def newRecordsLoop (cfg : Config) (loc : Location) (svc : Service) (slo : SLO)
    (existing : bqMap) (sd : MetricOracle) (now : Int) :
    List Nat → List MetricReq × Except String (List BQRow)
  | [] => ([], .ok [])
  | d :: rest =>
    let startT := daysAgoMidnightTimestamp now loc (d : Int)
    let endT := daysAgoMidnightTimestamp now loc ((d : Int) - 1)
    let date := formatDate loc startT
    match svc.HumanName, slo.HumanName with
    | some sname, some lname =>
      if existing.Check sname lname date then
        newRecordsLoop cfg loc svc slo existing sd now rest
      else
        let r1 := getGoodTotalLegacy cfg slo.Name startT endT sd
        match r1.2 with
        | .error e => (r1.1, .error e)
        | .ok gt =>
          let r2 := newRecordsLoop cfg loc svc slo existing sd now rest
          (r1.1 ++ r2.1,
            r2.2.map (fun rows => ⟨sname, lname, date, gt.2, gt.1, slo.Goal⟩ :: rows))
    | _, _ => ([], .error "panic: index out of range in HumanName")

/-- `newRecords` (sd.go, lines 84–115): the rows that need to be inserted for
one SLO, one per not-yet-recorded day with `daysAgo` ranging over
1..backfill. `tz` is the result of `time.LoadLocation(cfg.TimeZone)`. -/
def newRecords (cfg : Config) (tz : Option Location) (svc : Service) (slo : SLO)
    (existing : bqMap) (sd : MetricOracle) (now : Int) (backfill : Nat) :
    List MetricReq × Except String (List BQRow) :=
  match tz with
  | none => ([], .error ("unknown time zone " ++ cfg.TimeZone))
  | some loc => newRecordsLoop cfg loc svc slo existing sd now (List.range' 1 backfill)

/-- SLO loop of `syncAllServices` (sd.go, lines 64–78) for one service:
accumulate each SLO's new rows into the buffer and flush it to BigQuery
whenever it has reached the batch size. `putRes` gives the outcome of the
n-th `bq.Put` call; the returned triple is (metric requests, batches written,
final buffer and put count or error). -/
def syncSlos (cfg : Config) (tz : Option Location) (svc : Service)
    (existing : bqMap) (sd : MetricOracle) (putRes : Nat → Except String Unit)
    (now : Int) (backfill batchSize : Nat) :
    List SLO → List BQRow → Nat →
      List MetricReq × List (List BQRow) × Except String (List BQRow × Nat)
  | [], buffer, putCount => ([], [], .ok (buffer, putCount))
  | slo :: rest, buffer, putCount =>
    let r1 := newRecords cfg tz svc slo existing sd now backfill
    match r1.2 with
    | .error e => (r1.1, [], .error e)
    | .ok res =>
      let buffer := buffer ++ res
      if batchSize ≤ buffer.length then
        match putRes putCount with
        | .error e => (r1.1, [buffer], .error e)
        | .ok _ =>
          let r2 := syncSlos cfg tz svc existing sd putRes now backfill batchSize
            rest [] (putCount + 1)
          (r1.1 ++ r2.1, buffer :: r2.2.1, r2.2.2)
      else
        let r2 := syncSlos cfg tz svc existing sd putRes now backfill batchSize
          rest buffer putCount
        (r1.1 ++ r2.1, r2.2.1, r2.2.2)

/-- Service loop of `syncAllServices` (sd.go, lines 59–79). -/
def syncServices (cfg : Config) (tz : Option Location) (existing : bqMap)
    (sd : MetricOracle) (slosOf : Service → Except String (List SLO))
    (putRes : Nat → Except String Unit) (now : Int) (backfill batchSize : Nat) :
    List Service → List BQRow → Nat →
      List MetricReq × List (List BQRow) × Except String (List BQRow × Nat)
  | [], buffer, putCount => ([], [], .ok (buffer, putCount))
  | svc :: rest, buffer, putCount =>
    match slosOf svc with
    | .error e => ([], [], .error e)
    | .ok slos =>
      let r1 := syncSlos cfg tz svc existing sd putRes now backfill batchSize
        slos buffer putCount
      match r1.2.2 with
      | .error e => (r1.1, r1.2.1, .error e)
      | .ok st =>
        let r2 := syncServices cfg tz existing sd slosOf putRes now backfill
          batchSize rest st.1 st.2
        (r1.1 ++ r2.1, r1.2.1 ++ r2.2.1, r2.2.2)

/-- `syncAllServices` (sd.go, lines 47–81): build the existing-data index,
enumerate services and SLOs, accumulate new rows, flush full batches, and
always perform one final `bq.Put` of the remaining buffer (possibly empty).
Returns the metric requests issued, the list of row batches passed to
`bq.Put`, and the overall outcome. -/
def syncAllServices (cfg : Config) (tz : Option Location)
    (bqQuery : String → Except String (List BQRow))
    (services : Except String (List Service))
    (slosOf : Service → Except String (List SLO)) (sd : MetricOracle)
    (putRes : Nat → Except String Unit) (now : Int) (backfill batchSize : Nat) :
    List MetricReq × List (List BQRow) × Except String Unit :=
  match readBQMap bqQuery cfg tz now backfill with
  | .error e => ([], [], .error e)
  | .ok existing =>
    match services with
    | .error e => ([], [], .error e)
    | .ok svcs =>
      let r := syncServices cfg tz existing sd slosOf putRes now backfill
        batchSize svcs [] 0
      match r.2.2 with
      | .error e => (r.1, r.2.1, .error e)
      | .ok st =>
        (r.1, r.2.1 ++ [st.1],
          match putRes st.2 with
          | .error e => .error e
          | .ok _ => .ok ())

/-- Go `strconv.ParseInt(s, 10, 64)` modelled as an `Option`: an optional
sign followed by at least one decimal digit, within the int64 range. -/
def goParseInt64 (s : String) : Option Int :=
  let (sign, digits) : Int × List Char :=
    match s.data with
    | '+' :: rest => (1, rest)
    | '-' :: rest => (-1, rest)
    | l => (1, l)
  if digits.isEmpty then none
  else if digits.all Char.isDigit then
    let n : Nat := digits.foldl (fun a c => a * 10 + (c.toNat - 48)) 0
    let v : Int := sign * n
    if -(2 ^ 63) ≤ v ∧ v < 2 ^ 63 then some v else none
  else none

/-- The BqLease handle (bqlease.go), minus the client reference. -/
structure BqLeaseHandle where
  dataset : String
deriving Repr, DecidableEq

/-- `newBqLease` (bqlease.go): read the `slo2bq_lease_expiration` dataset
label and its etag; a non-empty value must parse as a Unix timestamp and not
lie in the future, after which the new expiration is written with the read
etag as precondition. `readRes` is the label read outcome, `writeRes` the
outcome of a conditional write of (value, etag); the returned list logs the
writes attempted. -/
def newBqLease (readRes : Except String (String × String))
    (writeRes : String → String → Except String Unit) (dataset : String)
    (now : Int) (expiration : Int) :
    List (String × String) × Except String BqLeaseHandle :=
  match readRes with
  | .error e => ([], .error e)
  | .ok re =>
    let exp := re.1
    let etag := re.2
    let write : List (String × String) × Except String BqLeaseHandle :=
      let value := toString expiration
      ([(value, etag)],
        match writeRes value etag with
        | .error e => .error ("Could not update BQ lease: " ++ e)
        | .ok _ => .ok ⟨dataset⟩)
    if exp ≠ "" then
      match goParseInt64 exp with
      | none => ([], .error ("Could not parse BQ lease expiration time " ++ exp))
      | some ts =>
        if now < ts then
          ([], .error "Could not obtain BQ lease: existing lease is still valid")
        else write
    else write

/-- A one-point DOUBLE series carrying value `q` with an `event_type` label,
as returned by the Stackdriver mock in sd_test.go. -/
def labeledSeries (label : String) (q : ℚ) : TimeSeries :=
  ⟨[("event_type", label)], .DOUBLE, [⟨.double q⟩]⟩

/-- A one-point unlabeled DOUBLE series, as a three-way-form counter query
returns after cross-series reduction. -/
def counterSeries (q : ℚ) : TimeSeries :=
  ⟨[], .DOUBLE, [⟨.double q⟩]⟩

/-- The configuration used by the sd_test.go scenario. -/
def cfgTest : Config := ⟨"project", "datasetname", "Europe/London"⟩

/-- Metric backend of the sd_test.go scenario: every query sees one good
series of 100 events and one bad series of 11. -/
def sdGoodBad : MetricOracle := fun _ => .ok [labeledSeries "good" 100, labeledSeries "bad" 11]

/-- Warehouse of the sd_test.go scenario: (svc1, slo1, 2015-05-08) and
(svc1, slo2, 2015-05-09) already recorded. -/
def queryTest : String → Except String (List BQRow) := fun _ =>
  .ok [⟨"svc1", "slo1", "2015-05-08", 0, 0, 0⟩, ⟨"svc1", "slo2", "2015-05-09", 0, 0, 0⟩]

/-- Catalog of the sd_test.go scenario: slo1 with goal 0.99 and slo2 with
goal 0.5, both on service s1. -/
def slosTest : Service → Except String (List SLO) := fun _ =>
  .ok [⟨"s1", "slo1", 99/100⟩, ⟨"s1", "slo2", 1/2⟩]

/-- Metric backend keyed by filter expression: good=10, bad=5, total=15. -/
def sdTenFive : MetricOracle := fun req =>
  if req.filter = "fg" then .ok [counterSeries 10]
  else if req.filter = "fb" then .ok [counterSeries 5]
  else if req.filter = "ft" then .ok [counterSeries 15]
  else .ok []

/-- Whether an `Except` is an error. -/
def isErr : Except String α → Prop
  | .error _ => True
  | .ok _ => False

instance (r : Except String α) : Decidable (isErr r) := by
  unfold isErr; cases r <;> infer_instance

/-- A location is sane when any two of its offsets differ by less than one
day (true of every IANA zone, whose offsets lie within ±14 hours). -/
def SaneLoc (loc : Location) : Prop :=
  ∀ o1 ∈ offsetsOf loc, ∀ o2 ∈ offsetsOf loc, o1 - o2 < 86400

instance (loc : Location) : Decidable (SaneLoc loc) := by
  unfold SaneLoc; infer_instance

theorem lookupZone_go_mem (t : Int) (ts : List (Int × Int)) :
    ∀ (off : Int) (start : Option Int),
      (lookupZone.go t off start ts).1 ∈ off :: ts.map Prod.snd := by
  induction ts with
  | nil => intro off start; simp [lookupZone.go]
  | cons h rest ih =>
    intro off start
    simp only [lookupZone.go, List.map_cons]
    by_cases hc : t < h.1
    · simp [hc]
    · simp only [hc, if_false]
      exact List.mem_cons_of_mem _ (ih h.2 (some h.1))

theorem utcOffset_mem (loc : Location) (t : Int) :
    utcOffset loc t ∈ offsetsOf loc :=
  lookupZone_go_mem t loc.transitions loc.baseOffset none

theorem goDate_eq_sub_offset (loc : Location) (w : Int) :
    ∃ o ∈ offsetsOf loc, goDate loc w = w - o := by
  simp only [goDate]
  split
  · exact ⟨utcOffset loc w, utcOffset_mem loc w, by
      show w = w - utcOffset loc w
      simp only [utcOffset]; omega⟩
  · split
    · exact ⟨(lookupZone loc w).1, utcOffset_mem loc w, rfl⟩
    · exact ⟨utcOffset loc (w - (lookupZone loc w).1), utcOffset_mem loc _, rfl⟩

theorem daysAgoMidnight_as_goDate (now : Int) (loc : Location) (d : Int) :
    daysAgoMidnightTimestamp now loc d = goDate loc ((localDay loc now - d) * 86400) :=
  rfl

/-- The interval between the boundaries of one local calendar day is 86400
seconds corrected by the difference of the UTC offsets resolved at its two
midnights. -/
theorem day_boundary_diff (now : Int) (loc : Location) (d : Int) :
    ∃ o1 ∈ offsetsOf loc, ∃ o2 ∈ offsetsOf loc,
      daysAgoMidnightTimestamp now loc (d - 1) - daysAgoMidnightTimestamp now loc d
        = 86400 + o1 - o2 := by
  obtain ⟨oS, hoS, hS⟩ := goDate_eq_sub_offset loc ((localDay loc now - d) * 86400)
  obtain ⟨oE, hoE, hE⟩ := goDate_eq_sub_offset loc ((localDay loc now - (d - 1)) * 86400)
  refine ⟨oS, hoS, oE, hoE, ?_⟩
  rw [daysAgoMidnight_as_goDate, daysAgoMidnight_as_goDate, hS, hE]
  ring

/-- For a sane location, distinct day offsets resolve to distinct midnight
instants. -/
theorem daysAgoMidnight_injective (now : Int) (loc : Location) (hs : SaneLoc loc)
    (d1 d2 : Int)
    (h : daysAgoMidnightTimestamp now loc d1 = daysAgoMidnightTimestamp now loc d2) :
    d1 = d2 := by
  obtain ⟨o1, ho1, h1⟩ := goDate_eq_sub_offset loc ((localDay loc now - d1) * 86400)
  obtain ⟨o2, ho2, h2⟩ := goDate_eq_sub_offset loc ((localDay loc now - d2) * 86400)
  rw [daysAgoMidnight_as_goDate, daysAgoMidnight_as_goDate, h1, h2] at h
  have hb1 := hs o1 ho1 o2 ho2
  have hb2 := hs o2 ho2 o1 ho1
  have h3 : (d2 - d1) * 86400 = o1 - o2 := by linarith
  omega

/-- Claim C3: the gap between `daysAgoMidnightTimestamp` applied at `daysAgo`
and `daysAgo - 1` is the true wall-clock length of that local calendar day:
in general 86400 seconds corrected by the UTC-offset change between the two
midnights, and concretely 24h on an ordinary London day, 23h on London's
2015 spring-forward day, 25h on London's 2015 fall-back day, and 23h30m on
Lord Howe Island's 2015 transition day. -/
theorem c3_day_boundary_lengths :
    (∀ (now : Int) (loc : Location) (daysAgo : Int),
      ∃ o1 ∈ offsetsOf loc, ∃ o2 ∈ offsetsOf loc,
        daysAgoMidnightTimestamp now loc (daysAgo - 1)
            - daysAgoMidnightTimestamp now loc daysAgo = 86400 + o1 - o2) ∧
    daysAgoMidnightTimestamp 1430492400 london2015 (-1)
        - daysAgoMidnightTimestamp 1430492400 london2015 0 = 24 * 3600 ∧
    daysAgoMidnightTimestamp 1427641200 london2015 (-1)
        - daysAgoMidnightTimestamp 1427641200 london2015 0 = 23 * 3600 ∧
    daysAgoMidnightTimestamp 1445785200 london2015 (-1)
        - daysAgoMidnightTimestamp 1445785200 london2015 0 = 25 * 3600 ∧
    daysAgoMidnightTimestamp 1443920400 lordHowe2015 (-1)
        - daysAgoMidnightTimestamp 1443920400 lordHowe2015 0 = 23 * 3600 + 1800 :=
  ⟨day_boundary_diff, by decide, by decide, by decide, by decide⟩

/-- Claim C10: `Service.HumanName` and `SLO.HumanName` return the display
name whenever it is non-empty; with an empty display name they index the 4th
(resp. 6th) `/`-separated component of the resource name, and are undefined
(a Go index-out-of-range panic, modelled as `none`) exactly when the name
has too few components. -/
theorem c10_humanName_partiality (s : Service) (o : SLO) :
    (s.DisplayName ≠ "" → s.HumanName = some s.DisplayName) ∧
    (s.DisplayName = "" → s.HumanName = (goSplit '/' s.Name).get? 3) ∧
    (s.DisplayName = "" → (s.HumanName = none ↔ (goSplit '/' s.Name).length ≤ 3)) ∧
    (o.DisplayName ≠ "" → o.HumanName = some o.DisplayName) ∧
    (o.DisplayName = "" → o.HumanName = (goSplit '/' o.Name).get? 5) ∧
    (o.DisplayName = "" → (o.HumanName = none ↔ (goSplit '/' o.Name).length ≤ 5)) := by
  refine ⟨?_, ?_, ?_, ?_, ?_, ?_⟩ <;> intro h <;>
    simp [Service.HumanName, SLO.HumanName, h, List.get?_eq_none]

/-- Witness for C10 at concrete inputs: a well-formed service resource name
falls back to its 4th component, and a malformed SLO resource name makes
`HumanName` undefined. -/
theorem c10_witness :
    Service.HumanName ⟨"projects/p/services/mysvc", ""⟩
        = (goSplit '/' "projects/p/services/mysvc").get? 3 ∧
    (SLO.HumanName ⟨"short", "", 1⟩ = none ↔ (goSplit '/' "short").length ≤ 5) :=
  ⟨(c10_humanName_partiality ⟨"projects/p/services/mysvc", ""⟩ ⟨"short", "", 1⟩).2.1 rfl,
   (c10_humanName_partiality ⟨"projects/p/services/mysvc", ""⟩ ⟨"short", "", 1⟩).2.2.2.2.2 rfl⟩

/-- Claim C2: `newBqLease` fails without writing when the stored label value
is non-empty but unparseable, or parses to a future timestamp; when the
label is empty or parses to a past timestamp it writes the new expiration as
a decimal Unix timestamp under the etag obtained from the read, succeeding
with a lease handle iff that conditional write is accepted. -/
theorem c2_newBqLease (writeRes : String → String → Except String Unit)
    (dataset v etag : String) (now expiration : Int) :
    (v ≠ "" → goParseInt64 v = none →
      newBqLease (.ok (v, etag)) writeRes dataset now expiration
        = ([], .error ("Could not parse BQ lease expiration time " ++ v))) ∧
    (∀ ts, goParseInt64 v = some ts → now < ts →
      newBqLease (.ok (v, etag)) writeRes dataset now expiration
        = ([], .error "Could not obtain BQ lease: existing lease is still valid")) ∧
    (∀ ts, v = "" ∨ (goParseInt64 v = some ts ∧ ts ≤ now) →
      (newBqLease (.ok (v, etag)) writeRes dataset now expiration).1
          = [(toString expiration, etag)] ∧
      (writeRes (toString expiration) etag = .ok () →
        (newBqLease (.ok (v, etag)) writeRes dataset now expiration).2
          = .ok ⟨dataset⟩) ∧
      (∀ e, writeRes (toString expiration) etag = .error e →
        (newBqLease (.ok (v, etag)) writeRes dataset now expiration).2
          = .error ("Could not update BQ lease: " ++ e))) := by
  refine ⟨?_, ?_, ?_⟩
  · intro hv hp
    simp [newBqLease, hv, hp]
  · intro ts hp hlt
    have hv : v ≠ "" := by
      intro he; rw [he] at hp; exact Option.noConfusion hp
    simp [newBqLease, hv, hp, hlt]
  · intro ts h
    rcases h with hv | ⟨hp, hle⟩
    · refine ⟨by simp [newBqLease, hv], ?_, ?_⟩
      · intro hw; simp [newBqLease, hv, hw]
      · intro e hw; simp [newBqLease, hv, hw]
    · have hv : v ≠ "" := by
        intro he; rw [he] at hp; exact Option.noConfusion hp
      have hnlt : ¬ now < ts := not_lt.mpr hle
      refine ⟨by simp [newBqLease, hv, hp, hnlt], ?_, ?_⟩
      · intro hw; simp [newBqLease, hv, hp, hnlt, hw]
      · intro e hw; simp [newBqLease, hv, hp, hnlt, hw]

/-- Witness for C2: a malformed stored lease fails without writing, and an
expired stored lease ("123", held until Unix second 123, now = 1000) is
replaced via a successful conditional write. -/
theorem c2_witness :
    newBqLease (.ok ("bogus", "etag1")) (fun _ _ => .ok ()) "dsname" 1000 1337
        = ([], .error "Could not parse BQ lease expiration time bogus") ∧
    (newBqLease (.ok ("123", "etag1")) (fun _ _ => .ok ()) "dsname" 1000 1337).1
        = [("1337", "etag1")] ∧
    (newBqLease (.ok ("123", "etag1")) (fun _ _ => .ok ()) "dsname" 1000 1337).2
        = .ok ⟨"dsname"⟩ :=
  ⟨(c2_newBqLease (fun _ _ => .ok ()) "dsname" "bogus" "etag1" 1000 1337).1
      (by decide) (by decide),
   by
    have h := (c2_newBqLease (fun _ _ => .ok ()) "dsname" "123" "etag1" 1000 1337).2.2
      123 (Or.inr ⟨by decide, by decide⟩)
    exact h.1.trans (by decide),
   ((c2_newBqLease (fun _ _ => .ok ()) "dsname" "123" "etag1" 1000 1337).2.2
      123 (Or.inr ⟨by decide, by decide⟩)).2.1 rfl⟩

/-- Claim C7: `getCounter` treats an empty response as the value 0 with no
error; one series with one point yields that point's value, DOUBLE values
being truncated (not rounded) toward zero and INT64 taken as-is; more than
one series, a point count other than one, or any other value type is an
error. -/
theorem c7_getCounter (cfg : Config) (startT endT : Int) (filter : String)
    (sd : MetricOracle) (ss : List TimeSeries) (h : ∀ q, sd q = .ok ss) :
    (ss = [] → (getCounter cfg startT endT filter sd).2 = .ok 0) ∧
    (∀ s p, ss = [s] → s.points = [p] →
      (s.valueType = .DOUBLE →
        (getCounter cfg startT endT filter sd).2 = .ok (ratTrunc p.value.getDouble)) ∧
      (s.valueType = .INT64 →
        (getCounter cfg startT endT filter sd).2 = .ok p.value.getInt64) ∧
      (s.valueType = .OTHER → isErr (getCounter cfg startT endT filter sd).2)) ∧
    (2 ≤ ss.length → isErr (getCounter cfg startT endT filter sd).2) ∧
    (∀ s, ss = [s] → s.points.length ≠ 1 →
      isErr (getCounter cfg startT endT filter sd).2) ∧
    (getCounter cfgTest 0 86400 "f" (fun _ => .ok [counterSeries (109/10)])).2 = .ok 10 ∧
    (getCounter cfgTest 0 86400 "f" (fun _ => .ok [counterSeries (-109/10)])).2 = .ok (-10) := by
  refine ⟨?_, ?_, ?_, ?_, by decide, by decide⟩
  · intro he; simp [getCounter, h, he]
  · intro s p hss hp
    refine ⟨?_, ?_, ?_⟩ <;> intro hv <;> simp [getCounter, h, hss, hp, hv, isErr]
  · intro hlen
    match hss : ss with
    | [] => simp [hss] at hlen
    | [s] => simp [hss] at hlen
    | s1 :: s2 :: rest => simp [getCounter, h, isErr]
  · intro s hss hp
    simp only [getCounter, h, hss]
    match hpts : s.points with
    | [] => simp [isErr]
    | [p] => rw [hpts] at hp; simp at hp
    | p1 :: p2 :: rest => simp [isErr]

/-- Claim C4: in the three-way ratio form `getGoodTotal` returns the two
queried counters directly for good+total, derives total = good + bad for
good+bad, derives good = total − bad for bad+total, and the three
two-of-three configurations agree on equivalent counter inputs
(good=10, bad=5, total=15 all give (10, 15)). -/
theorem c4_goodTotal_dispatch (cfg : Config) (sli : GoodTotalRatioSLI)
    (startT endT : Int) (sd : MetricOracle) :
    (∀ g t, sli.Good ≠ "" → sli.Total ≠ "" →
      (getCounter cfg startT endT sli.Good sd).2 = .ok g →
      (getCounter cfg startT endT sli.Total sd).2 = .ok t →
      (getGoodTotal cfg sli startT endT sd).2 = .ok (g, t)) ∧
    (∀ g b, sli.Good ≠ "" → sli.Bad ≠ "" → sli.Total = "" →
      (getCounter cfg startT endT sli.Good sd).2 = .ok g →
      (getCounter cfg startT endT sli.Bad sd).2 = .ok b →
      (getGoodTotal cfg sli startT endT sd).2 = .ok (g, g + b)) ∧
    (∀ b t, sli.Good = "" → sli.Bad ≠ "" → sli.Total ≠ "" →
      (getCounter cfg startT endT sli.Bad sd).2 = .ok b →
      (getCounter cfg startT endT sli.Total sd).2 = .ok t →
      (getGoodTotal cfg sli startT endT sd).2 = .ok (t - b, t)) ∧
    (getGoodTotal cfgTest ⟨"fg", "", "ft"⟩ 0 86400 sdTenFive).2 = .ok (10, 15) ∧
    (getGoodTotal cfgTest ⟨"fg", "fb", ""⟩ 0 86400 sdTenFive).2 = .ok (10, 15) ∧
    (getGoodTotal cfgTest ⟨"", "fb", "ft"⟩ 0 86400 sdTenFive).2 = .ok (10, 15) := by
  refine ⟨?_, ?_, ?_, by decide, by decide, by decide⟩
  · intro g t hg ht h1 h2
    simp only [getGoodTotal, hg, ht, ne_eq, not_false_iff, true_and, if_true]
    rw [h1, h2]
    rfl
  · intro g b hg hb ht h1 h2
    simp only [getGoodTotal, hg, hb, ht, ne_eq, not_false_iff, not_true, true_and,
      and_false, false_and, and_true, if_false, if_true]
    rw [h1, h2]
    rfl
  · intro b t hg hb ht h1 h2
    simp only [getGoodTotal, hg, hb, ht, ne_eq, not_false_iff, not_true, true_and,
      and_false, false_and, and_true, if_false, if_true]
    rw [h1, h2]
    rfl

/-- Claim C5: with fewer than two of the three SLI filter expressions
configured, `getGoodTotal` issues no query and returns the
incomplete-indicator error, never counts. -/
theorem c5_incomplete_indicator (cfg : Config) (sli : GoodTotalRatioSLI)
    (startT endT : Int) (sd : MetricOracle)
    (h : (if sli.Good = "" then 0 else 1) + (if sli.Bad = "" then 0 else 1)
        + (if sli.Total = "" then 0 else 1) ≤ 1) :
    getGoodTotal cfg sli startT endT sd
      = ([], .error "expected 2 out of 3 filter expressions (good, bad, total) to be defined") := by
  by_cases hg : sli.Good = "" <;> by_cases hb : sli.Bad = "" <;>
    by_cases ht : sli.Total = "" <;>
    simp [hg, hb, ht] at h ⊢ <;>
    simp [getGoodTotal, hg, hb, ht]

/-- Witness for C5: an SLI with only the bad filter set is rejected. -/
theorem c5_witness :
    getGoodTotal cfgTest ⟨"", "fb", ""⟩ 0 86400 sdTenFive
      = ([], .error "expected 2 out of 3 filter expressions (good, bad, total) to be defined") :=
  c5_incomplete_indicator cfgTest ⟨"", "fb", ""⟩ 0 86400 sdTenFive (by decide)

theorem legacySum_ok_shape :
    ∀ (l : List TimeSeries) (g t : ℚ) (r : Int × Int), legacySum l g t = .ok r →
      ∀ s ∈ l, s.points.length = 1 ∧ s.valueType = .DOUBLE ∧
        (getLabel s.labels "event_type" = "good" ∨ getLabel s.labels "event_type" = "bad") := by
  intro l
  induction l with
  | nil => intro g t r _ s hs; simp at hs
  | cons s0 rest ih =>
    intro g t r hok s hs
    simp only [legacySum] at hok
    rcases hpts : s0.points with _ | ⟨p, ps⟩
    · rw [hpts] at hok
      exact absurd hok (by simp)
    · rcases ps with _ | ⟨p2, ps2⟩
      · rw [hpts] at hok
        simp only at hok
        by_cases hv : s0.valueType = MetricValueType.DOUBLE
        · rw [if_neg (fun hn => hn hv)] at hok
          by_cases hbad : getLabel s0.labels "event_type" = "bad"
          · rw [if_pos hbad] at hok
            rcases List.mem_cons.mp hs with hh | ht
            · subst hh; exact ⟨by rw [hpts]; rfl, hv, Or.inr hbad⟩
            · exact ih _ _ _ hok s ht
          · by_cases hgood : getLabel s0.labels "event_type" = "good"
            · rw [if_neg hbad, if_pos hgood] at hok
              rcases List.mem_cons.mp hs with hh | ht
              · subst hh; exact ⟨by rw [hpts]; rfl, hv, Or.inl hgood⟩
              · exact ih _ _ _ hok s ht
            · rw [if_neg hbad, if_neg hgood] at hok
              exact absurd hok (by simp)
        · rw [if_pos hv] at hok
          exact absurd hok (by simp)
      · rw [hpts] at hok
        exact absurd hok (by simp)

/-- Counterexample to claim C6 as stated: a metrics response with zero
series (series count ≠ 2) does not produce an error — the legacy
`getGoodTotal` returns good = 0, total = 0 successfully. -/
theorem c6_counterexample :
    (getGoodTotalLegacy cfgTest "s1" 0 86400 (fun _ => .ok [])).2 = .ok (0, 0) ∧
    ¬ isErr (getGoodTotalLegacy cfgTest "s1" 0 86400 (fun _ => .ok [])).2 := by
  exact ⟨by decide, by decide⟩

/-- Claim C6 (amended): the legacy `getGoodTotal` returns (0, 0) with no
error on an empty response; it errors on any series count other than 0 or 2,
on a series whose point count is not 1, whose value type is not DOUBLE, or
whose `event_type` label is neither good nor bad; with a good series and a
bad series it returns good = the good value, total = good + bad. -/
theorem c6_legacy_shape (cfg : Config) (sloName : String) (startT endT : Int)
    (sd : MetricOracle) (ss : List TimeSeries) (h : ∀ q, sd q = .ok ss) :
    (ss.length = 0 → (getGoodTotalLegacy cfg sloName startT endT sd).2 = .ok (0, 0)) ∧
    (ss.length ≠ 0 → ss.length ≠ 2 →
      isErr (getGoodTotalLegacy cfg sloName startT endT sd).2) ∧
    (ss.length = 2 →
      (∃ s ∈ ss, ¬(s.points.length = 1 ∧ s.valueType = .DOUBLE ∧
        (getLabel s.labels "event_type" = "good" ∨ getLabel s.labels "event_type" = "bad"))) →
      isErr (getGoodTotalLegacy cfg sloName startT endT sd).2) ∧
    (∀ lg lb gq bq, ss = [⟨lg, .DOUBLE, [⟨.double gq⟩]⟩, ⟨lb, .DOUBLE, [⟨.double bq⟩]⟩] →
      getLabel lg "event_type" = "good" → getLabel lb "event_type" = "bad" →
      (getGoodTotalLegacy cfg sloName startT endT sd).2
        = .ok (ratTrunc gq, ratTrunc (gq + bq))) ∧
    (∀ lg lb gq bq, ss = [⟨lb, .DOUBLE, [⟨.double bq⟩]⟩, ⟨lg, .DOUBLE, [⟨.double gq⟩]⟩] →
      getLabel lg "event_type" = "good" → getLabel lb "event_type" = "bad" →
      (getGoodTotalLegacy cfg sloName startT endT sd).2
        = .ok (ratTrunc gq, ratTrunc (bq + gq))) := by
  refine ⟨?_, ?_, ?_, ?_, ?_⟩
  · intro he
    simp only [getGoodTotalLegacy, h]
    rw [if_pos he]
  · intro h0 h2
    simp only [getGoodTotalLegacy, h]
    rw [if_neg h0, if_pos h2]
    simp [isErr]
  · intro h2 hbad
    simp only [getGoodTotalLegacy, h]
    rw [if_neg (by omega), if_neg (by omega)]
    rcases hr : legacySum ss 0 0 with e | v
    · simp [isErr]
    · obtain ⟨s, hs, hshape⟩ := hbad
      exact absurd (legacySum_ok_shape ss 0 0 v hr s hs) hshape
  · intro lg lb gq bq hss hg hb
    simp only [getGoodTotalLegacy, h, hss]
    simp only [List.length_cons, List.length_nil]
    rw [if_neg (by omega), if_neg (by omega)]
    simp [legacySum, hg, hb, TypedValue.getDouble]
  · intro lg lb gq bq hss hg hb
    simp only [getGoodTotalLegacy, h, hss]
    simp only [List.length_cons, List.length_nil]
    rw [if_neg (by omega), if_neg (by omega)]
    simp [legacySum, hg, hb, TypedValue.getDouble]

theorem buildBqMapRows_error :
    ∀ (rows : List BQRow) (acc : bqMap),
      (∃ r ∈ rows, r.Service = "" ∨ r.SLO = "" ∨ r.Date = "") →
      isErr (buildBqMapRows rows acc) := by
  intro rows
  induction rows with
  | nil => intro acc h; simp at h
  | cons r0 rest ih =>
    intro acc h
    simp only [buildBqMapRows]
    by_cases hbad : r0.Service = "" ∨ r0.SLO = "" ∨ r0.Date = ""
    · rw [if_pos hbad]; trivial
    · rw [if_neg hbad]
      rcases h with ⟨r, hr, hre⟩
      rcases List.mem_cons.mp hr with hh | ht
      · exact absurd (hh ▸ hre) hbad
      · exact ih _ ⟨r, ht, hre⟩

theorem buildBqMapRows_ok_mem :
    ∀ (rows : List BQRow) (acc m : bqMap), buildBqMapRows rows acc = .ok m →
      ∀ k : bqMapKey, k ∈ (m : List bqMapKey) ↔ k ∈ (acc : List bqMapKey) ∨
        ∃ r ∈ rows, r.Service = k.Service ∧ r.SLO = k.SLO ∧ r.Date = k.Date := by
  intro rows
  induction rows with
  | nil =>
    intro acc m h k
    simp only [buildBqMapRows] at h
    cases h
    simp
  | cons r0 rest ih =>
    intro acc m h k
    simp only [buildBqMapRows] at h
    by_cases hbad : r0.Service = "" ∨ r0.SLO = "" ∨ r0.Date = ""
    · rw [if_pos hbad] at h; exact absurd h (by simp)
    · rw [if_neg hbad] at h
      have := ih _ _ h k
      rw [this]
      constructor
      · rintro (hacc | hrest)
        · rcases List.mem_cons.mp hacc with hk | hk
          · exact Or.inr ⟨r0, List.mem_cons_self _ _, by
              rcases k with ⟨ks, kl, kd⟩
              cases hk
              exact ⟨rfl, rfl, rfl⟩⟩
          · exact Or.inl hk
        · rcases hrest with ⟨r, hr, hre⟩
          exact Or.inr ⟨r, List.mem_cons_of_mem _ hr, hre⟩
      · rintro (hacc | ⟨r, hr, hre⟩)
        · exact Or.inl (List.mem_cons_of_mem _ hacc)
        · rcases List.mem_cons.mp hr with hh | ht
          · subst hh
            refine Or.inl ?_
            rcases k with ⟨ks, kl, kd⟩
            obtain ⟨h1, h2, h3⟩ := hre
            simp only [bqMap.Add]
            rw [h1, h2, h3]
            exact List.mem_cons_self _ _
          · exact Or.inr ⟨r, ht, hre⟩

/-- Claim C9: `readBQMap` fails whenever the warehouse query returns a row
with an empty Service, SLO or Date; otherwise the resulting index answers
`Check(service, slo, date)` positively exactly for the triples present in
the query result, comparing all three components by string equality. -/
theorem c9_readBQMap (bqQuery : String → Except String (List BQRow))
    (cfg : Config) (loc : Location) (now : Int) (backfill : Nat)
    (rows : List BQRow) (h : ∀ q, bqQuery q = .ok rows) :
    ((∃ r ∈ rows, r.Service = "" ∨ r.SLO = "" ∨ r.Date = "") →
      isErr (readBQMap bqQuery cfg (some loc) now backfill)) ∧
    (∀ m, readBQMap bqQuery cfg (some loc) now backfill = .ok m →
      ∀ s l d, m.Check s l d = true ↔
        ∃ r ∈ rows, r.Service = s ∧ r.SLO = l ∧ r.Date = d) := by
  constructor
  · intro hbad
    simp only [readBQMap, h]
    exact buildBqMapRows_error rows {} hbad
  · intro m hm s l d
    simp only [readBQMap, h] at hm
    have hmem := buildBqMapRows_ok_mem rows {} m hm ⟨s, l, d⟩
    have hContains : m.Check s l d = true ↔ bqMapKey.mk s l d ∈ (m : List bqMapKey) := by
      simp only [bqMap.Check]
      exact List.elem_iff
    rw [hContains, hmem]
    have hemp : bqMapKey.mk s l d ∈ (({} : bqMap) : List bqMapKey) ↔ False :=
      iff_false_intro (List.not_mem_nil _)
    rw [hemp]
    simp only [false_or]

/-- Witness for C9: a result row with an empty Service is rejected, and on
the sd_test.go warehouse contents the index holds exactly the returned
triples. -/
theorem c9_witness :
    isErr (readBQMap (fun _ => .ok [⟨"", "slo2", "2015-01-01", 0, 0, 0⟩])
      cfgTest (some london2015) 1431270000 40) ∧
    (∀ m, readBQMap queryTest cfgTest (some london2015) 1431270000 40 = .ok m →
      ∀ s l d, m.Check s l d = true ↔
        ∃ r ∈ [(⟨"svc1", "slo1", "2015-05-08", 0, 0, 0⟩ : BQRow),
               ⟨"svc1", "slo2", "2015-05-09", 0, 0, 0⟩],
          r.Service = s ∧ r.SLO = l ∧ r.Date = d) :=
  ⟨(c9_readBQMap (fun _ => .ok [⟨"", "slo2", "2015-01-01", 0, 0, 0⟩]) cfgTest
      london2015 1431270000 40 [⟨"", "slo2", "2015-01-01", 0, 0, 0⟩] (fun _ => rfl)).1
      ⟨⟨"", "slo2", "2015-01-01", 0, 0, 0⟩, List.mem_cons_self _ _, Or.inl rfl⟩,
   (c9_readBQMap queryTest cfgTest london2015 1431270000 40
      [⟨"svc1", "slo1", "2015-05-08", 0, 0, 0⟩, ⟨"svc1", "slo2", "2015-05-09", 0, 0, 0⟩]
      (fun _ => rfl)).2⟩

/-- Witness for C7: one 10-event counter series yields 10, an empty response
yields 0. -/
theorem c7_witness :
    (getCounter cfgTest 0 86400 "f" (fun _ => .ok [counterSeries 10])).2 = .ok 10 ∧
    (getCounter cfgTest 0 86400 "f" (fun _ => .ok ([] : List TimeSeries))).2 = .ok 0 := by
  constructor
  · have h := ((c7_getCounter cfgTest 0 86400 "f" (fun _ => .ok [counterSeries 10])
      [counterSeries 10] (fun _ => rfl)).2.1 (counterSeries 10) ⟨.double 10⟩ rfl rfl).1 rfl
    exact h.trans (by decide)
  · exact (c7_getCounter cfgTest 0 86400 "f" (fun _ => .ok ([] : List TimeSeries))
      [] (fun _ => rfl)).1 rfl

/-- Witness for C4: the good+total configuration on the 10/5/15 backend
returns (10, 15) through the dispatch theorem. -/
theorem c4_witness :
    (getGoodTotal cfgTest ⟨"fg", "", "ft"⟩ 0 86400 sdTenFive).2 = .ok (10, 15) :=
  (c4_goodTotal_dispatch cfgTest ⟨"fg", "", "ft"⟩ 0 86400 sdTenFive).1 10 15
    (by decide) (by decide) (by decide) (by decide)

/-- Witness for C6 (amended): the sd_test.go two-series good/bad response
(100 good, 11 bad) yields good = 100, total = 111. -/
theorem c6_witness :
    (getGoodTotalLegacy cfgTest "s1" 0 86400 sdGoodBad).2 = .ok (100, 111) := by
  have h := (c6_legacy_shape cfgTest "s1" 0 86400 sdGoodBad
      [labeledSeries "good" 100, labeledSeries "bad" 11] (fun _ => rfl)).2.2.2.1
    [("event_type", "good")] [("event_type", "bad")] 100 11 rfl (by decide) (by decide)
  exact h.trans (by decide)

theorem getGoodTotalLegacy_log (cfg : Config) (sloName : String)
    (startT endT : Int) (sd : MetricOracle) :
    (getGoodTotalLegacy cfg sloName startT endT sd).1
      = [⟨"projects/" ++ cfg.Project, "select_slo_counts(\"" ++ sloName ++ "\")",
          startT, endT, endT - startT, false⟩] := rfl

/-- Every request the day loop issues belongs to a day of the list whose key
was NOT found in the existing-data index, and carries that day's interval. -/
theorem newRecordsLoop_log (cfg : Config) (loc : Location) (svc : Service) (slo : SLO)
    (existing : bqMap) (sd : MetricOracle) (now : Int) (sname lname : String)
    (hs : svc.HumanName = some sname) (hl : slo.HumanName = some lname) :
    ∀ (days : List Nat),
      ∀ req ∈ (newRecordsLoop cfg loc svc slo existing sd now days).1,
        ∃ d ∈ days,
          existing.Check sname lname
            (formatDate loc (daysAgoMidnightTimestamp now loc (d : Int))) = false ∧
          req.startSec = daysAgoMidnightTimestamp now loc (d : Int) ∧
          req.endSec = daysAgoMidnightTimestamp now loc ((d : Int) - 1) := by
  intro days
  induction days with
  | nil => intro req hreq; simp [newRecordsLoop] at hreq
  | cons d rest ih =>
    intro req hreq
    simp only [newRecordsLoop, hs, hl] at hreq
    cases hchk : existing.Check sname lname
        (formatDate loc (daysAgoMidnightTimestamp now loc (d : Int))) with
    | true =>
      rw [if_pos (by rw [hchk])] at hreq
      obtain ⟨d', hd', hrest⟩ := ih req hreq
      exact ⟨d', List.mem_cons_of_mem _ hd', hrest⟩
    | false =>
      rw [if_neg (by rw [hchk]; simp)] at hreq
      rcases hr : (getGoodTotalLegacy cfg slo.Name
          (daysAgoMidnightTimestamp now loc (d : Int))
          (daysAgoMidnightTimestamp now loc ((d : Int) - 1)) sd).2 with e | gt
      · rw [hr] at hreq
        simp only [getGoodTotalLegacy_log, List.mem_singleton] at hreq
        exact ⟨d, List.mem_cons_self _ _, hchk, by rw [hreq], by rw [hreq]⟩
      · rw [hr] at hreq
        simp only [List.mem_append, getGoodTotalLegacy_log, List.mem_singleton] at hreq
        rcases hreq with hh | ht
        · exact ⟨d, List.mem_cons_self _ _, hchk, by rw [hh], by rw [hh]⟩
        · obtain ⟨d', hd', hrest⟩ := ih req ht
          exact ⟨d', List.mem_cons_of_mem _ hd', hrest⟩

/-- Every row the day loop returns belongs to a day of the list whose key
was NOT found in the existing-data index, and carries that day's key. -/
theorem newRecordsLoop_rows (cfg : Config) (loc : Location) (svc : Service) (slo : SLO)
    (existing : bqMap) (sd : MetricOracle) (now : Int) (sname lname : String)
    (hs : svc.HumanName = some sname) (hl : slo.HumanName = some lname) :
    ∀ (days : List Nat) (rows : List BQRow),
      (newRecordsLoop cfg loc svc slo existing sd now days).2 = .ok rows →
      ∀ row ∈ rows,
        ∃ d ∈ days,
          row.Service = sname ∧ row.SLO = lname ∧
          row.Date = formatDate loc (daysAgoMidnightTimestamp now loc (d : Int)) ∧
          existing.Check sname lname
            (formatDate loc (daysAgoMidnightTimestamp now loc (d : Int))) = false := by
  intro days
  induction days with
  | nil =>
    intro rows h row hrow
    simp only [newRecordsLoop] at h
    cases h
    simp at hrow
  | cons d rest ih =>
    intro rows h row hrow
    simp only [newRecordsLoop, hs, hl] at h
    cases hchk : existing.Check sname lname
        (formatDate loc (daysAgoMidnightTimestamp now loc (d : Int))) with
    | true =>
      rw [if_pos (by rw [hchk])] at h
      obtain ⟨d', hd', hrest⟩ := ih rows h row hrow
      exact ⟨d', List.mem_cons_of_mem _ hd', hrest⟩
    | false =>
      rw [if_neg (by rw [hchk]; simp)] at h
      rcases hr : (getGoodTotalLegacy cfg slo.Name
          (daysAgoMidnightTimestamp now loc (d : Int))
          (daysAgoMidnightTimestamp now loc ((d : Int) - 1)) sd).2 with e | gt
      · rw [hr] at h
        exact absurd h (by simp)
      · rw [hr] at h
        rcases hr2 : (newRecordsLoop cfg loc svc slo existing sd now rest).2 with e2 | rows2
        · rw [hr2] at h
          exact absurd h (by simp [Except.map])
        · rw [hr2] at h
          simp only [Except.map, Except.ok.injEq] at h
          subst h
          rcases List.mem_cons.mp hrow with hh | ht
          · subst hh
            exact ⟨d, List.mem_cons_self _ _, rfl, rfl, rfl, hchk⟩
          · obtain ⟨d', hd', hrest⟩ := ih rows2 hr2 row ht
            exact ⟨d', List.mem_cons_of_mem _ hd', hrest⟩

/-- Claim C1: when the existing-data index already holds the key of a
backfill day, `newRecords` issues no metric query with that day's interval
and returns no row with that key; returned rows carry only dates of
`daysAgo` 1..backfill, never today's. -/
theorem c1_idempotent_skip (cfg : Config) (loc : Location) (svc : Service) (slo : SLO)
    (existing : bqMap) (sd : MetricOracle) (now : Int) (backfill : Nat)
    (d : Nat) (sname lname : String)
    (hsane : SaneLoc loc)
    (hs : svc.HumanName = some sname) (hl : slo.HumanName = some lname)
    (hd1 : 1 ≤ d) (hd2 : d ≤ backfill)
    (hchk : existing.Check sname lname
      (formatDate loc (daysAgoMidnightTimestamp now loc (d : Int))) = true) :
    (∀ req ∈ (newRecords cfg (some loc) svc slo existing sd now backfill).1,
      ¬(req.startSec = daysAgoMidnightTimestamp now loc (d : Int) ∧
        req.endSec = daysAgoMidnightTimestamp now loc ((d : Int) - 1))) ∧
    (∀ rows, (newRecords cfg (some loc) svc slo existing sd now backfill).2 = .ok rows →
      ∀ row ∈ rows,
        ¬(row.Service = sname ∧ row.SLO = lname ∧
          row.Date = formatDate loc (daysAgoMidnightTimestamp now loc (d : Int))) ∧
        ∃ d' : Nat, 1 ≤ d' ∧ d' ≤ backfill ∧
          row.Date = formatDate loc (daysAgoMidnightTimestamp now loc (d' : Int))) := by
  constructor
  · intro req hreq he
    obtain ⟨d', hd', hck', h1, h2⟩ :=
      newRecordsLoop_log cfg loc svc slo existing sd now sname lname hs hl
        (List.range' 1 backfill) req hreq
    have hts : daysAgoMidnightTimestamp now loc (d' : Int)
        = daysAgoMidnightTimestamp now loc (d : Int) := by rw [← h1, he.1]
    have : (d' : Int) = (d : Int) := daysAgoMidnight_injective now loc hsane _ _ hts
    have hdd : d' = d := by exact_mod_cast this
    rw [hdd] at hck'
    rw [hck'] at hchk
    exact Bool.noConfusion hchk
  · intro rows hok row hrow
    obtain ⟨d', hd', hsvc, hslo, hdate, hck'⟩ :=
      newRecordsLoop_rows cfg loc svc slo existing sd now sname lname hs hl
        (List.range' 1 backfill) rows hok row hrow
    have hd'r : 1 ≤ d' ∧ d' ≤ backfill := by
      have := List.mem_range'_1.mp hd'
      omega
    constructor
    · rintro ⟨-, -, hdd⟩
      rw [hdate] at hdd
      rw [hdd] at hck'
      rw [hck'] at hchk
      exact Bool.noConfusion hchk
    · exact ⟨d', hd'r.1, hd'r.2, hdate⟩

/-- Witness for C1: in the sd_test.go scenario (now = 2015-05-10T15:00Z,
London, backfill 2) with (svc1, slo1, 2015-05-09) already indexed, no query
covers 2015-05-09 and no returned row carries its key. -/
theorem c1_witness :
    (∀ req ∈ (newRecords cfgTest (some london2015) ⟨"s1", "svc1"⟩ ⟨"s1", "slo1", 99/100⟩
        [⟨"svc1", "slo1", "2015-05-09"⟩] sdGoodBad 1431270000 2).1,
      ¬(req.startSec = daysAgoMidnightTimestamp 1431270000 london2015 ((1 : Nat) : Int) ∧
        req.endSec = daysAgoMidnightTimestamp 1431270000 london2015 (((1 : Nat) : Int) - 1))) ∧
    (∀ rows, (newRecords cfgTest (some london2015) ⟨"s1", "svc1"⟩ ⟨"s1", "slo1", 99/100⟩
        [⟨"svc1", "slo1", "2015-05-09"⟩] sdGoodBad 1431270000 2).2 = .ok rows →
      ∀ row ∈ rows,
        ¬(row.Service = "svc1" ∧ row.SLO = "slo1" ∧
          row.Date = formatDate london2015
            (daysAgoMidnightTimestamp 1431270000 london2015 ((1 : Nat) : Int))) ∧
        ∃ d' : Nat, 1 ≤ d' ∧ d' ≤ 2 ∧
          row.Date = formatDate london2015
            (daysAgoMidnightTimestamp 1431270000 london2015 (d' : Int))) :=
  c1_idempotent_skip cfgTest london2015 ⟨"s1", "svc1"⟩ ⟨"s1", "slo1", 99/100⟩
    [⟨"svc1", "slo1", "2015-05-09"⟩] sdGoodBad 1431270000 2 1 "svc1" "slo1"
    (by decide) (by decide) (by decide) (by decide) (by decide) (by decide)

/-- Claim C8: `syncAllServices` flushes the row buffer to the store whenever
it has reached the batch size, and always issues one final write of the
remaining buffer — even an empty one. On the sd_test.go scenario (batch size
1, two new rows from two SLOs) the store sees exactly one write per row plus
one final empty write. -/
theorem c8_batching :
    ((syncAllServices cfgTest (some london2015) queryTest (.ok [⟨"s1", "svc1"⟩])
        slosTest sdGoodBad (fun _ => .ok ()) 1431270000 2 1).2.1
      = [[⟨"svc1", "slo1", "2015-05-09", 111, 100, 99/100⟩],
         [⟨"svc1", "slo2", "2015-05-08", 111, 100, 1/2⟩],
         []] ∧
     (syncAllServices cfgTest (some london2015) queryTest (.ok [⟨"s1", "svc1"⟩])
        slosTest sdGoodBad (fun _ => .ok ()) 1431270000 2 1).2.2 = .ok ()) ∧
    (∀ (cfg : Config) (tz : Option Location)
        (bqQuery : String → Except String (List BQRow))
        (svcs : List Service) (slosOf : Service → Except String (List SLO))
        (sd : MetricOracle) (putRes : Nat → Except String Unit)
        (now : Int) (backfill batchSize : Nat) (existing : bqMap)
        (st : List BQRow × Nat) (reqs : List MetricReq) (puts : List (List BQRow)),
      readBQMap bqQuery cfg tz now backfill = .ok existing →
      syncServices cfg tz existing sd slosOf putRes now backfill batchSize svcs [] 0
        = (reqs, puts, .ok st) →
      (syncAllServices cfg tz bqQuery (.ok svcs) slosOf sd putRes now backfill
        batchSize).2.1 = puts ++ [st.1]) := by
  refine ⟨⟨by decide, by decide⟩, ?_⟩
  intro cfg tz bqQuery svcs slosOf sd putRes now backfill batchSize existing st reqs
    puts hread hsync
  simp only [syncAllServices, hread, hsync]

/-- Witness for C8: on the sd_test.go scenario the final empty-buffer write
is appended after the two per-row batch writes. -/
theorem c8_witness :
    (syncAllServices cfgTest (some london2015) queryTest (.ok [⟨"s1", "svc1"⟩])
        slosTest sdGoodBad (fun _ => .ok ()) 1431270000 2 1).2.1
      = [[⟨"svc1", "slo1", "2015-05-09", 111, 100, 99/100⟩],
         [⟨"svc1", "slo2", "2015-05-08", 111, 100, 1/2⟩]] ++ [[]] :=
  c8_batching.2 cfgTest (some london2015) queryTest [⟨"s1", "svc1"⟩] slosTest
    sdGoodBad (fun _ => .ok ()) 1431270000 2 1
    [⟨"svc1", "slo2", "2015-05-09"⟩, ⟨"svc1", "slo1", "2015-05-08"⟩]
    ([], 2)
    [⟨"projects/project", "select_slo_counts(\"s1\")", 1431126000, 1431212400, 86400, false⟩,
     ⟨"projects/project", "select_slo_counts(\"s1\")", 1431039600, 1431126000, 86400, false⟩]
    [[⟨"svc1", "slo1", "2015-05-09", 111, 100, 99/100⟩],
     [⟨"svc1", "slo2", "2015-05-08", 111, 100, 1/2⟩]]
    (by decide) (by decide)

end Slo2bq
